import Mathlib

/-!
Shallow embedding of `bramus/style-observer` (src/index.ts, the multi-element
`CSSStyleObserver` class) in Lean 4.

Elements are modelled by natural-number identities.  The host primitives
(`getComputedStyle`, style mutation, event subscription) are modelled as an
explicit function parameter and explicit fields of an `ObserverState`.
The TypeScript enums `NotificationMode` and `ReturnFormat` are string-valued
enums at runtime, so they are modelled as plain strings with the same values;
this lets unrecognized values be expressed, exactly as in JavaScript.
Association lists model the JS objects, `Set` and `WeakMap` used by the class;
`Store.set` replaces the first binding of a key or appends a fresh one, which
matches JS insertion-order key semantics.
-/

namespace StyleObserver

abbrev HTMLElement := Nat

/-- `NotificationMode.CHANGED_ONLY = 'changed_only'` (src/index.ts). -/
def NotificationMode.CHANGED_ONLY : String := "changed_only"

/-- `NotificationMode.ALL = 'all'` (src/index.ts). -/
def NotificationMode.ALL : String := "all"

/-- `ReturnFormat.VALUE_ONLY = 'value_only'` (src/index.ts). -/
def ReturnFormat.VALUE_ONLY : String := "value_only"

/-- `ReturnFormat.OBJECT = 'object'` (src/index.ts). -/
def ReturnFormat.OBJECT : String := "object"

/-- `interface StyleObserverChange` : one change record.  `previousValue`
is `Option String` because on the first observation the JS cache lookup
yields `undefined`. -/
structure StyleObserverChange where
  value : String
  previousValue : Option String
  changed : Bool
  element : HTMLElement
  deriving DecidableEq, Repr

/-- Association-list lookup: first binding of the key, `none` if absent
(the JS `obj[key]` / `map.get(key)` read). -/
def Store.get {κ α : Type} [DecidableEq κ] : List (κ × α) → κ → Option α
  | [], _ => none
  | (k, v) :: rest, q => if k = q then some v else Store.get rest q

/-- Association-list write: replace the first binding of the key, append when
absent (the JS `obj[key] = v` / `map.set(k, v)` write, preserving key order). -/
def Store.set {κ α : Type} [DecidableEq κ] : List (κ × α) → κ → α → List (κ × α)
  | [], k, v => [(k, v)]
  | (k', v') :: rest, k, v =>
      if k' = k then (k, v) :: rest else (k', v') :: Store.set rest k v

/-- Replace the first binding of the key if present, else do nothing.  This
models mutating in place the object previously fetched with `map.get(k)`:
when the map had no entry, the mutation hits the `?? {}` fallback object and
is lost. -/
def Store.setIfPresent {κ α : Type} [DecidableEq κ] : List (κ × α) → κ → α → List (κ × α)
  | [], _, _ => []
  | (k', v') :: rest, k, v =>
      if k' = k then (k, v) :: rest else (k', v') :: Store.setIfPresent rest k v

/-- Delete the first binding of the key (the JS `map.delete(k)`). -/
def Store.del {κ α : Type} [DecidableEq κ] : List (κ × α) → κ → List (κ × α)
  | [], _ => []
  | (k', v') :: rest, k => if k' = k then rest else (k', v') :: Store.del rest k

/-- `type CachedValues = { [key: string]: string }`. -/
abbrev CachedValues := List (String × String)

/-- `type StyleObserverChanges = { [key: string]: StyleObserverChange }`,
as an insertion-ordered association list. -/
abbrev StyleObserverChanges := List (String × StyleObserverChange)

/-- `type CSSDeclarations = StyleObserverChanges | StyleObserverChangesValueOnly`:
the payload handed to the user callback, in one of the two return formats. -/
inductive CSSDeclarations where
  | valueOnly : List (String × String) → CSSDeclarations
  | object : StyleObserverChanges → CSSDeclarations
  deriving DecidableEq, Repr

/-- `interface CSSStyleObserverOptions` with its two optional fields. -/
structure CSSStyleObserverOptions where
  notificationMode : Option String
  returnFormat : Option String
  deriving DecidableEq, Repr

/-- The immutable configuration part of a `CSSStyleObserver` instance
(`_observedVariables`, `_notificationMode`, `_returnFormat`; the callback is
modelled by returning the payload it would receive). -/
structure CSSStyleObserver where
  observedVariables : List String
  notificationMode : String
  returnFormat : String
  deriving DecidableEq, Repr

/-- The `constructor(observedVariables, callback, options = {})` body:
`this._notificationMode = options.notificationMode ?? NotificationMode.CHANGED_ONLY;`
`this._returnFormat = options.returnFormat ?? ReturnFormat.VALUE_ONLY;`. -/
def CSSStyleObserver.create (observedVariables : List String)
    (options : CSSStyleObserverOptions) : CSSStyleObserver :=
  { observedVariables := observedVariables
    notificationMode := options.notificationMode.getD NotificationMode.CHANGED_ONLY
    returnFormat := options.returnFormat.getD ReturnFormat.VALUE_ONLY }

/-- The mutable state of an observer instance together with the observable
host state it manipulates: `_observedElements` (a `Set`), `_cachedValues`
(a `WeakMap`), the set of elements on which `_eventHandler` is currently
registered via `addEventListener`, and each element's inline style map. -/
structure ObserverState where
  observedElements : List HTMLElement
  cachedValues : List (HTMLElement × CachedValues)
  listeners : List HTMLElement
  styles : List (HTMLElement × List (String × String))
  deriving DecidableEq, Repr

/-- The state of a freshly constructed observer: nothing observed yet. -/
def initialState : ObserverState :=
  { observedElements := [], cachedValues := [], listeners := [], styles := [] }

/-- The comma-joined `transition` value built in `_setTargetElementStyles`:
one `<property> 0.001ms step-start` term per observed variable. -/
def cssTransitionValue (observedVariables : List String) : String :=
  String.intercalate ", " (observedVariables.map (fun value => value ++ " 0.001ms step-start"))

/-- `targetElement.style.setProperty(name, value)`. -/
def setStyleProperty (st : ObserverState) (e : HTMLElement) (name value : String) :
    ObserverState :=
  { st with styles := Store.set st.styles e (Store.set ((Store.get st.styles e).getD []) name value) }

/-- `targetElement.style.removeProperty(name)`. -/
def removeStyleProperty (st : ObserverState) (e : HTMLElement) (name : String) :
    ObserverState :=
  { st with styles := Store.set st.styles e (Store.del ((Store.get st.styles e).getD []) name) }

/-- `_setTargetElementStyles`: overwrite `transition` and `transition-behavior`. -/
def setTargetElementStyles (obs : CSSStyleObserver) (st : ObserverState)
    (targetElement : HTMLElement) : ObserverState :=
  setStyleProperty
    (setStyleProperty st targetElement "transition" (cssTransitionValue obs.observedVariables))
    targetElement "transition-behavior" "allow-discrete"

/-- `_unsetTargetElementStyles`: remove `transition` and `transition-behavior`. -/
def unsetTargetElementStyles (st : ObserverState) (targetElement : HTMLElement) :
    ObserverState :=
  removeStyleProperty (removeStyleProperty st targetElement "transition")
    targetElement "transition-behavior"

/-- `addEventListener('transitionstart', this._eventHandler)`: registering the
same handler twice is a no-op in the DOM, so the listener set is a set. -/
def addTransitionListener (st : ObserverState) (e : HTMLElement) : ObserverState :=
  { st with listeners := if e ∈ st.listeners then st.listeners else st.listeners ++ [e] }

/-- `removeEventListener('transitionstart', this._eventHandler)`. -/
def removeTransitionListener (st : ObserverState) (e : HTMLElement) : ObserverState :=
  { st with listeners := st.listeners.erase e }

/-- The loop body of `_processComputedStyle`: iterate `observedVariables`
(`forEach`), reading the computed value, diffing against the per-element
cache, and recording a change entry plus a cache write when
`notificationMode === ALL || hasChanged`.  The cache mutation is in place,
so the updated cache threads through the remaining iterations. -/
def processVars (notificationMode : String) (computedStyle : String → String)
    (targetElement : HTMLElement) :
    List String → StyleObserverChanges → CachedValues → StyleObserverChanges × CachedValues
  | [], changes, cache => (changes, cache)
  | propertyName :: rest, changes, cache =>
    let currentValue := computedStyle propertyName
    let previousValue := Store.get cache propertyName
    let hasChanged : Bool := decide (some currentValue ≠ previousValue)
    if ((notificationMode == NotificationMode.ALL) || hasChanged : Bool) then
      processVars notificationMode computedStyle targetElement rest
        (Store.set changes propertyName
          { value := currentValue, previousValue := previousValue,
            changed := hasChanged, element := targetElement })
        (Store.set cache propertyName currentValue)
    else
      processVars notificationMode computedStyle targetElement rest changes cache

/-- `_processComputedStyle(computedStyle, targetElement)`, started with an
empty change set. -/
def processComputedStyle (obs : CSSStyleObserver) (computedStyle : String → String)
    (targetElement : HTMLElement) (cachedValuesForElement : CachedValues) :
    StyleObserverChanges × CachedValues :=
  processVars obs.notificationMode computedStyle targetElement
    obs.observedVariables [] cachedValuesForElement

/-- `_getFormatter(format)`: `OBJECT` returns the changes unchanged; the
`VALUE_ONLY` case and the `default` case both project each record to its
current value. -/
def getFormatter (format : String) (changes : StyleObserverChanges) : CSSDeclarations :=
  if (format == ReturnFormat.OBJECT : Bool) then
    CSSDeclarations.object changes
  else
    CSSDeclarations.valueOnly (changes.map (fun p => (p.1, p.2.value)))

/-- A `transitionstart` `TransitionEvent`: the element it targets and the
CSS property whose transition started. -/
structure TransitionEvent where
  target : HTMLElement
  propertyName : String
  deriving DecidableEq, Repr

/-- The argument of `_handleUpdate(e: TransitionEvent | HTMLElement)`. -/
inductive UpdateSource where
  | event : TransitionEvent → UpdateSource
  | element : HTMLElement → UpdateSource
  deriving DecidableEq, Repr

/-- The target-element resolution at the top of `_handleUpdate`:
`e instanceof HTMLElement ? e : (e.target as HTMLElement)`. -/
def updateTarget : UpdateSource → HTMLElement
  | UpdateSource.event ev => ev.target
  | UpdateSource.element el => el

/-- `_handleUpdate`: resolve the target element, ignore it unless it is in
`_observedElements`, diff the computed style against the element's cache,
return early on an empty change set, otherwise format the changes and invoke
the callback.  The returned `Option CSSDeclarations` is the callback
invocation (with its argument) performed by this update cycle, if any. -/
def handleUpdate (obs : CSSStyleObserver) (st : ObserverState)
    (getComputedStyle : HTMLElement → String → String) (e : UpdateSource) :
    ObserverState × Option CSSDeclarations :=
  let targetElement := updateTarget e
  if targetElement ∈ st.observedElements then
    let cachedValuesForElement := (Store.get st.cachedValues targetElement).getD []
    let result := processComputedStyle obs (getComputedStyle targetElement)
      targetElement cachedValuesForElement
    let st' := { st with
      cachedValues := Store.setIfPresent st.cachedValues targetElement result.2 }
    if (result.1.length == 0 : Bool) then (st', none)
    else (st', some (getFormatter obs.returnFormat result.1))
  else (st, none)

/-- `attach(targetElement)` (aliased `observe` in the public API): when the
element is not yet observed, add it to `_observedElements`, create its empty
cache entry, inject the tracking style, subscribe the event handler, and run
one synchronous update cycle; otherwise do nothing. -/
def attach (obs : CSSStyleObserver) (st : ObserverState)
    (getComputedStyle : HTMLElement → String → String) (targetElement : HTMLElement) :
    ObserverState × Option CSSDeclarations :=
  if targetElement ∈ st.observedElements then (st, none)
  else
    let st1 := { st with
      observedElements := st.observedElements ++ [targetElement]
      cachedValues := Store.set st.cachedValues targetElement [] }
    let st2 := setTargetElementStyles obs st1 targetElement
    let st3 := addTransitionListener st2 targetElement
    handleUpdate obs st3 getComputedStyle (UpdateSource.element targetElement)

/-- The `forEach` body of `detach`: unset the tracking styles, unsubscribe
the handler, and remove the element from `_observedElements` and
`_cachedValues`. -/
def unwatchOne (st : ObserverState) (elementToUnwatch : HTMLElement) : ObserverState :=
  let s2 := removeTransitionListener (unsetTargetElementStyles st elementToUnwatch)
    elementToUnwatch
  { s2 with
    observedElements := s2.observedElements.erase elementToUnwatch
    cachedValues := Store.del s2.cachedValues elementToUnwatch }

/-- `detach(targetElement?)` (aliased `unobserve`): with an argument, unwatch
it if observed; with no argument, unwatch every observed element; quit early
when there is nothing to unwatch. -/
def detach (st : ObserverState) (targetElement : Option HTMLElement) : ObserverState :=
  let elementsToUnwatch : List HTMLElement :=
    match targetElement with
    | some t => if t ∈ st.observedElements then [t] else []
    | none => st.observedElements
  if (elementsToUnwatch.length == 0 : Bool) then st
  else elementsToUnwatch.foldl unwatchOne st

/-- States reachable by a `CSSStyleObserver` instance: start detached, then
any interleaving of `attach`, `detach` and event-driven update cycles, for
arbitrary host-supplied computed styles. -/
inductive Reachable (obs : CSSStyleObserver) : ObserverState → Prop where
  | init : Reachable obs initialState
  | attachStep : ∀ st cs e, Reachable obs st → Reachable obs (attach obs st cs e).1
  | detachStep : ∀ st t, Reachable obs st → Reachable obs (detach st t)
  | updateStep : ∀ st cs src, Reachable obs st → Reachable obs (handleUpdate obs st cs src).1

/-- Well-formedness: the cache's key list is exactly the observed-element
list, and observed elements are duplicate-free (a `Set`). -/
def StateWF (st : ObserverState) : Prop :=
  st.cachedValues.map Prod.fst = st.observedElements ∧ st.observedElements.Nodup

/-- An empty callback payload, in either format. -/
def CSSDeclarations.isEmptyPayload : CSSDeclarations → Bool
  | CSSDeclarations.valueOnly l => l.isEmpty
  | CSSDeclarations.object l => l.isEmpty

/-! Concrete instances used to exercise the model on closed inputs. -/

/-- An observer over `["--x"]` with the default mode and format. -/
def obsChg : CSSStyleObserver :=
  { observedVariables := ["--x"], notificationMode := NotificationMode.CHANGED_ONLY,
    returnFormat := ReturnFormat.VALUE_ONLY }

/-- An observer over `["--x"]` in `ALL` mode. -/
def obsAll : CSSStyleObserver :=
  { observedVariables := ["--x"], notificationMode := NotificationMode.ALL,
    returnFormat := ReturnFormat.VALUE_ONLY }

/-- An observer over `["--x"]` in `OBJECT` format. -/
def obsObjFmt : CSSStyleObserver :=
  { observedVariables := ["--x"], notificationMode := NotificationMode.CHANGED_ONLY,
    returnFormat := ReturnFormat.OBJECT }

/-- An observer whose `returnFormat` is an unrecognized string while its
`notificationMode` is the recognized `ALL`. -/
def obsBogusFmtAll : CSSStyleObserver :=
  { observedVariables := ["--x"], notificationMode := NotificationMode.ALL,
    returnFormat := "bogus_format" }

/-- An observer whose `notificationMode` is an unrecognized string while its
`returnFormat` is the recognized `OBJECT`. -/
def obsBogusModeObj : CSSStyleObserver :=
  { observedVariables := ["--x"], notificationMode := "bogus_mode",
    returnFormat := ReturnFormat.OBJECT }

/-- A state in which element `0` is observed and its cache holds `--x ↦ "1"`. -/
def stReg : ObserverState :=
  { observedElements := [0], cachedValues := [(0, [("--x", "1")])],
    listeners := [0], styles := [] }

/-- A host computed style resolving every property to `"1"`. -/
def csOne : HTMLElement → String → String := fun _ _ => "1"

/-- A host computed style resolving every property to `"2"`. -/
def csTwo : HTMLElement → String → String := fun _ _ => "2"

/-! Association-list lemmas. -/

theorem Store.get_set_same {κ α : Type} [DecidableEq κ] (m : List (κ × α)) (k : κ) (v : α) :
    Store.get (Store.set m k v) k = some v := by
  induction m with
  | nil => simp [Store.set, Store.get]
  | cons hd tl ih =>
    obtain ⟨k', v'⟩ := hd
    by_cases h : k' = k <;> simp [Store.set, Store.get, h, ih]

theorem Store.set_of_get_none {κ α : Type} [DecidableEq κ] (m : List (κ × α)) (k : κ) (v : α)
    (h : Store.get m k = none) : Store.set m k v = m ++ [(k, v)] := by
  induction m with
  | nil => simp [Store.set]
  | cons hd tl ih =>
    obtain ⟨k', v'⟩ := hd
    by_cases hk : k' = k
    · simp [Store.get, hk] at h
    · simp only [Store.get, if_neg hk] at h
      simp [Store.set, hk, ih h]

theorem Store.get_append_single_ne {κ α : Type} [DecidableEq κ] (m : List (κ × α))
    (k q : κ) (v : α) (hne : q ≠ k) : Store.get (m ++ [(k, v)]) q = Store.get m q := by
  induction m with
  | nil => simp [Store.get, Ne.symm hne]
  | cons hd tl ih =>
    obtain ⟨k', v'⟩ := hd
    by_cases h : k' = q <;> simp [Store.get, h, ih]

theorem Store.setIfPresent_of_get_some {κ α : Type} [DecidableEq κ] (m : List (κ × α))
    (k : κ) (v : α) (h : Store.get m k = some v) : Store.setIfPresent m k v = m := by
  induction m with
  | nil => simp [Store.get] at h
  | cons hd tl ih =>
    obtain ⟨k', v'⟩ := hd
    by_cases hk : k' = k
    · subst hk
      have hv : v' = v := by simpa [Store.get] using h
      simp [Store.setIfPresent, hv]
    · simp only [Store.get, if_neg hk] at h
      simp [Store.setIfPresent, hk, ih h]

theorem Store.setIfPresent_of_get_none {κ α : Type} [DecidableEq κ] (m : List (κ × α))
    (k : κ) (v : α) (h : Store.get m k = none) : Store.setIfPresent m k v = m := by
  induction m with
  | nil => simp [Store.setIfPresent]
  | cons hd tl ih =>
    obtain ⟨k', v'⟩ := hd
    by_cases hk : k' = k
    · simp [Store.get, hk] at h
    · simp only [Store.get, if_neg hk] at h
      simp [Store.setIfPresent, hk, ih h]

theorem Store.setIfPresent_getD {κ α : Type} [DecidableEq κ] (m : List (κ × α))
    (k : κ) (d : α) : Store.setIfPresent m k ((Store.get m k).getD d) = m := by
  cases hg : Store.get m k with
  | none => simpa [hg] using Store.setIfPresent_of_get_none m k d hg
  | some v => simpa [hg] using Store.setIfPresent_of_get_some m k v hg

theorem Store.map_fst_setIfPresent {κ α : Type} [DecidableEq κ] (m : List (κ × α))
    (k : κ) (v : α) : (Store.setIfPresent m k v).map Prod.fst = m.map Prod.fst := by
  induction m with
  | nil => simp [Store.setIfPresent]
  | cons hd tl ih =>
    obtain ⟨k', v'⟩ := hd
    by_cases hk : k' = k <;> simp [Store.setIfPresent, hk, ih]

theorem Store.map_fst_set_of_get_none {κ α : Type} [DecidableEq κ] (m : List (κ × α))
    (k : κ) (v : α) (h : Store.get m k = none) :
    (Store.set m k v).map Prod.fst = m.map Prod.fst ++ [k] := by
  rw [Store.set_of_get_none m k v h]
  simp

theorem Store.map_fst_del {κ α : Type} [DecidableEq κ] (m : List (κ × α)) (k : κ) :
    (Store.del m k).map Prod.fst = (m.map Prod.fst).erase k := by
  induction m with
  | nil => simp [Store.del]
  | cons hd tl ih =>
    obtain ⟨k', v'⟩ := hd
    by_cases hk : k' = k
    · subst hk
      simp [Store.del, List.erase_cons_head]
    · simp [Store.del, hk, List.erase_cons_tail, ih]

theorem Store.get_isSome_iff_mem {κ α : Type} [DecidableEq κ] (m : List (κ × α)) (k : κ) :
    (Store.get m k).isSome ↔ k ∈ m.map Prod.fst := by
  induction m with
  | nil => simp [Store.get]
  | cons hd tl ih =>
    obtain ⟨k', v'⟩ := hd
    by_cases hk : k' = k
    · subst hk
      simp [Store.get]
    · simp [Store.get, hk, ih, Ne.symm hk]

theorem Store.get_eq_none_of_not_mem {κ α : Type} [DecidableEq κ] (m : List (κ × α))
    (k : κ) (h : k ∉ m.map Prod.fst) : Store.get m k = none := by
  cases hg : Store.get m k with
  | none => rfl
  | some v =>
    exact absurd ((Store.get_isSome_iff_mem m k).mp (by simp [hg])) h

theorem Store.set_ne_nil {κ α : Type} [DecidableEq κ] (m : List (κ × α)) (k : κ) (v : α) :
    Store.set m k v ≠ [] := by
  cases m with
  | nil => simp [Store.set]
  | cons hd tl =>
    obtain ⟨k', v'⟩ := hd
    by_cases hk : k' = k <;> simp [Store.set, hk]

theorem Store.mem_set {κ α : Type} [DecidableEq κ] (m : List (κ × α)) (k : κ) (v : α)
    (pr : κ × α) (h : pr ∈ Store.set m k v) : pr ∈ m ∨ pr = (k, v) := by
  induction m with
  | nil =>
    simp only [Store.set, List.mem_singleton] at h
    exact Or.inr h
  | cons hd tl ih =>
    obtain ⟨k', v'⟩ := hd
    by_cases hk : k' = k
    · simp only [Store.set, if_pos hk, List.mem_cons] at h
      rcases h with h | h
      · exact Or.inr h
      · exact Or.inl (List.mem_cons_of_mem _ h)
    · simp only [Store.set, if_neg hk, List.mem_cons] at h
      rcases h with h | h
      · exact Or.inl (by simp [h])
      · rcases ih h with h' | h'
        · exact Or.inl (List.mem_cons_of_mem _ h')
        · exact Or.inr h'

/-! Lemmas about the diff loop `_processComputedStyle`. -/

theorem processVars_fresh (mode : String) (cs : String → String) (el : HTMLElement)
    (vars : List String) (changes : StyleObserverChanges) (cache : CachedValues)
    (hnd : vars.Nodup)
    (hcache : ∀ p ∈ vars, Store.get cache p = none)
    (hch : ∀ p ∈ vars, Store.get changes p = none) :
    processVars mode cs el vars changes cache =
      (changes ++ vars.map (fun p =>
        (p, { value := cs p, previousValue := none, changed := true, element := el })),
       cache ++ vars.map (fun p => (p, cs p))) := by
  induction vars generalizing changes cache with
  | nil => simp [processVars]
  | cons p rest ih =>
    have hp := hcache p (List.mem_cons_self p rest)
    have hpch := hch p (List.mem_cons_self p rest)
    have hfresh : ∀ q ∈ rest, q ≠ p := by
      intro q hq
      rcases List.nodup_cons.mp hnd with ⟨hpnot, _⟩
      intro hqp
      exact hpnot (hqp ▸ hq)
    have hrest : rest.Nodup := (List.nodup_cons.mp hnd).2
    simp only [processVars, hp]
    have hcond : ((mode == NotificationMode.ALL) ||
        decide (some (cs p) ≠ (none : Option String))) = true := by
      simp
    rw [if_pos hcond]
    rw [Store.set_of_get_none changes p _ hpch, Store.set_of_get_none cache p _ hp]
    rw [ih _ _ hrest
      (fun q hq => by
        rw [Store.get_append_single_ne cache p q _ (hfresh q hq)]
        exact hcache q (List.mem_cons_of_mem p hq))
      (fun q hq => by
        rw [Store.get_append_single_ne changes p q _ (hfresh q hq)]
        exact hch q (List.mem_cons_of_mem p hq))]
    simp

theorem processVars_sync (mode : String) (cs : String → String) (el : HTMLElement)
    (vars : List String) (changes : StyleObserverChanges) (cache : CachedValues)
    (hm : (mode == NotificationMode.ALL) = false)
    (hsync : ∀ p ∈ vars, Store.get cache p = some (cs p)) :
    processVars mode cs el vars changes cache = (changes, cache) := by
  induction vars with
  | nil => simp [processVars]
  | cons p rest ih =>
    have hp := hsync p (List.mem_cons_self p rest)
    simp only [processVars, hp]
    have hcond : ((mode == NotificationMode.ALL) ||
        decide (some (cs p) ≠ some (cs p))) = false := by
      simp [hm]
    rw [if_neg (by simp only [hcond]; exact Bool.false_ne_true)]
    exact ih (fun q hq => hsync q (List.mem_cons_of_mem p hq))

theorem processVars_fst_eq_nil (mode : String) (cs : String → String) (el : HTMLElement)
    (vars : List String) (changes : StyleObserverChanges) (cache : CachedValues)
    (h : (processVars mode cs el vars changes cache).1 = []) : changes = [] := by
  induction vars generalizing changes cache with
  | nil => simpa [processVars] using h
  | cons p rest ih =>
    simp only [processVars] at h
    split at h
    · exact absurd (ih _ _ h) (Store.set_ne_nil changes p _)
    · exact ih _ _ h

theorem processVars_mode_congr (mode mode' : String) (cs : String → String)
    (el : HTMLElement) (vars : List String) (changes : StyleObserverChanges)
    (cache : CachedValues)
    (h : (mode == NotificationMode.ALL) = (mode' == NotificationMode.ALL)) :
    processVars mode cs el vars changes cache = processVars mode' cs el vars changes cache := by
  induction vars generalizing changes cache with
  | nil => simp [processVars]
  | cons p rest ih =>
    simp only [processVars, h]
    split
    · exact ih _ _
    · exact ih _ _

theorem processVars_changed_true (mode : String) (cs : String → String) (el : HTMLElement)
    (vars : List String) (changes : StyleObserverChanges) (cache : CachedValues)
    (hm : (mode == NotificationMode.ALL) = false)
    (hacc : ∀ pr ∈ changes, pr.2.changed = true) :
    ∀ pr ∈ (processVars mode cs el vars changes cache).1, pr.2.changed = true := by
  induction vars generalizing changes cache with
  | nil => simpa [processVars] using hacc
  | cons p rest ih =>
    simp only [processVars, hm, Bool.false_or]
    split
    · rename_i hchanged
      refine ih _ _ (fun pr hpr => ?_)
      rcases Store.mem_set changes p _ pr hpr with hmem | heq
      · exact hacc pr hmem
      · rw [heq]
        exact hchanged
    · exact ih _ _ hacc

/-! Projection lemmas: style and listener bookkeeping leaves the registration
set and the value cache untouched. -/

@[simp] theorem setStyleProperty_observedElements (st : ObserverState) (e : HTMLElement)
    (n v : String) : (setStyleProperty st e n v).observedElements = st.observedElements := rfl

@[simp] theorem setStyleProperty_cachedValues (st : ObserverState) (e : HTMLElement)
    (n v : String) : (setStyleProperty st e n v).cachedValues = st.cachedValues := rfl

@[simp] theorem removeStyleProperty_observedElements (st : ObserverState) (e : HTMLElement)
    (n : String) : (removeStyleProperty st e n).observedElements = st.observedElements := rfl

@[simp] theorem removeStyleProperty_cachedValues (st : ObserverState) (e : HTMLElement)
    (n : String) : (removeStyleProperty st e n).cachedValues = st.cachedValues := rfl

@[simp] theorem setTargetElementStyles_observedElements (obs : CSSStyleObserver)
    (st : ObserverState) (e : HTMLElement) :
    (setTargetElementStyles obs st e).observedElements = st.observedElements := rfl

@[simp] theorem setTargetElementStyles_cachedValues (obs : CSSStyleObserver)
    (st : ObserverState) (e : HTMLElement) :
    (setTargetElementStyles obs st e).cachedValues = st.cachedValues := rfl

@[simp] theorem unsetTargetElementStyles_observedElements (st : ObserverState)
    (e : HTMLElement) :
    (unsetTargetElementStyles st e).observedElements = st.observedElements := rfl

@[simp] theorem unsetTargetElementStyles_cachedValues (st : ObserverState)
    (e : HTMLElement) :
    (unsetTargetElementStyles st e).cachedValues = st.cachedValues := rfl

@[simp] theorem addTransitionListener_observedElements (st : ObserverState)
    (e : HTMLElement) :
    (addTransitionListener st e).observedElements = st.observedElements := rfl

@[simp] theorem addTransitionListener_cachedValues (st : ObserverState) (e : HTMLElement) :
    (addTransitionListener st e).cachedValues = st.cachedValues := rfl

@[simp] theorem removeTransitionListener_observedElements (st : ObserverState)
    (e : HTMLElement) :
    (removeTransitionListener st e).observedElements = st.observedElements := rfl

@[simp] theorem removeTransitionListener_cachedValues (st : ObserverState)
    (e : HTMLElement) :
    (removeTransitionListener st e).cachedValues = st.cachedValues := rfl

/-! Structural lemmas about the update cycle and the lifecycle operations. -/

theorem handleUpdate_observedElements (obs : CSSStyleObserver) (st : ObserverState)
    (cs : HTMLElement → String → String) (src : UpdateSource) :
    (handleUpdate obs st cs src).1.observedElements = st.observedElements := by
  simp only [handleUpdate]
  split
  · split <;> rfl
  · rfl

theorem handleUpdate_map_fst_cachedValues (obs : CSSStyleObserver) (st : ObserverState)
    (cs : HTMLElement → String → String) (src : UpdateSource) :
    (handleUpdate obs st cs src).1.cachedValues.map Prod.fst =
      st.cachedValues.map Prod.fst := by
  simp only [handleUpdate]
  split
  · split <;> exact Store.map_fst_setIfPresent _ _ _
  · rfl

theorem handleUpdate_not_observed (obs : CSSStyleObserver) (st : ObserverState)
    (cs : HTMLElement → String → String) (src : UpdateSource)
    (h : updateTarget src ∉ st.observedElements) :
    handleUpdate obs st cs src = (st, none) := by
  simp only [handleUpdate]
  rw [if_neg h]

theorem attach_of_mem (obs : CSSStyleObserver) (st : ObserverState)
    (cs : HTMLElement → String → String) (e : HTMLElement)
    (h : e ∈ st.observedElements) : attach obs st cs e = (st, none) := by
  simp only [attach]
  rw [if_pos h]

theorem attach_fst_observedElements (obs : CSSStyleObserver) (st : ObserverState)
    (cs : HTMLElement → String → String) (e : HTMLElement)
    (hnew : e ∉ st.observedElements) :
    (attach obs st cs e).1.observedElements = st.observedElements ++ [e] := by
  simp only [attach, if_neg hnew]
  rw [handleUpdate_observedElements]
  simp

theorem attach_fst_map_fst_cachedValues (obs : CSSStyleObserver) (st : ObserverState)
    (cs : HTMLElement → String → String) (e : HTMLElement)
    (hnew : e ∉ st.observedElements) :
    (attach obs st cs e).1.cachedValues.map Prod.fst =
      (Store.set st.cachedValues e []).map Prod.fst := by
  simp only [attach, if_neg hnew]
  rw [handleUpdate_map_fst_cachedValues]
  simp

theorem unwatchOne_observedElements (st : ObserverState) (e : HTMLElement) :
    (unwatchOne st e).observedElements = st.observedElements.erase e := by
  simp [unwatchOne]

theorem unwatchOne_map_fst_cachedValues (st : ObserverState) (e : HTMLElement) :
    (unwatchOne st e).cachedValues.map Prod.fst =
      (st.cachedValues.map Prod.fst).erase e := by
  simp [unwatchOne, Store.map_fst_del]

/-! Preservation of the registration/cache well-formedness invariant. -/

theorem wf_initial : StateWF initialState := ⟨rfl, List.nodup_nil⟩

theorem wf_handleUpdate (obs : CSSStyleObserver) (st : ObserverState)
    (cs : HTMLElement → String → String) (src : UpdateSource) (h : StateWF st) :
    StateWF (handleUpdate obs st cs src).1 := by
  constructor
  · rw [handleUpdate_map_fst_cachedValues, handleUpdate_observedElements]
    exact h.1
  · rw [handleUpdate_observedElements]
    exact h.2

theorem wf_attach (obs : CSSStyleObserver) (st : ObserverState)
    (cs : HTMLElement → String → String) (e : HTMLElement) (h : StateWF st) :
    StateWF (attach obs st cs e).1 := by
  by_cases hm : e ∈ st.observedElements
  · rw [attach_of_mem obs st cs e hm]
    exact h
  · constructor
    · rw [attach_fst_map_fst_cachedValues obs st cs e hm,
        attach_fst_observedElements obs st cs e hm,
        Store.map_fst_set_of_get_none _ _ _
          (Store.get_eq_none_of_not_mem _ _ (by rw [h.1]; exact hm)), h.1]
    · rw [attach_fst_observedElements obs st cs e hm]
      simp [List.nodup_append, h.2, hm]

theorem wf_unwatchOne (st : ObserverState) (e : HTMLElement) (h : StateWF st) :
    StateWF (unwatchOne st e) := by
  constructor
  · rw [unwatchOne_map_fst_cachedValues, unwatchOne_observedElements, h.1]
  · rw [unwatchOne_observedElements]
    exact h.2.erase e

theorem wf_foldl_unwatchOne (l : List HTMLElement) (st : ObserverState) (h : StateWF st) :
    StateWF (l.foldl unwatchOne st) := by
  induction l generalizing st with
  | nil => exact h
  | cons a rest ih => exact ih _ (wf_unwatchOne st a h)

theorem wf_detach (st : ObserverState) (t : Option HTMLElement) (h : StateWF st) :
    StateWF (detach st t) := by
  simp only [detach]
  split
  · exact h
  · exact wf_foldl_unwatchOne _ _ h

theorem reachable_wf (obs : CSSStyleObserver) (st : ObserverState) (h : Reachable obs st) :
    StateWF st := by
  induction h with
  | init => exact wf_initial
  | attachStep st cs e _ ih => exact wf_attach obs st cs e ih
  | detachStep st t _ ih => exact wf_detach st t ih
  | updateStep st cs src _ ih => exact wf_handleUpdate obs st cs src ih

/-! Consequences of `detach` used for the teardown claims. -/

theorem foldl_unwatchOne_observedElements (l : List HTMLElement) (st : ObserverState) :
    (l.foldl unwatchOne st).observedElements =
      l.foldl (fun acc e => acc.erase e) st.observedElements := by
  induction l generalizing st with
  | nil => rfl
  | cons a rest ih =>
    rw [List.foldl_cons, List.foldl_cons, ih, unwatchOne_observedElements]

theorem foldl_erase_self (l : List HTMLElement) (hnd : l.Nodup) :
    l.foldl (fun acc e => acc.erase e) l = [] := by
  induction l with
  | nil => rfl
  | cons a rest ih =>
    rw [List.foldl_cons, List.erase_cons_head]
    exact ih (List.nodup_cons.mp hnd).2

theorem detach_none_observedElements (st : ObserverState)
    (hnd : st.observedElements.Nodup) : (detach st none).observedElements = [] := by
  simp only [detach]
  split
  · rename_i hlen
    simp only [beq_iff_eq, List.length_eq_zero] at hlen
    exact hlen
  · rw [foldl_unwatchOne_observedElements]
    exact foldl_erase_self st.observedElements hnd

theorem detach_some_not_mem (st : ObserverState) (e : HTMLElement)
    (hnd : st.observedElements.Nodup) : e ∉ (detach st (some e)).observedElements := by
  by_cases hm : e ∈ st.observedElements
  · simp only [detach, if_pos hm]
    rw [if_neg (by simp)]
    rw [List.foldl_cons, List.foldl_nil, unwatchOne_observedElements]
    exact hnd.not_mem_erase
  · simp only [detach, if_neg hm]
    rw [if_pos (by simp)]
    exact hm

/-! Characterizations of the callback produced by an update cycle. -/

theorem handleUpdate_snd (obs : CSSStyleObserver) (st : ObserverState)
    (cs : HTMLElement → String → String) (src : UpdateSource)
    (hmem : updateTarget src ∈ st.observedElements) :
    (handleUpdate obs st cs src).2 =
      if ((processComputedStyle obs (cs (updateTarget src)) (updateTarget src)
            ((Store.get st.cachedValues (updateTarget src)).getD [])).1.length == 0 : Bool)
      then none
      else some (getFormatter obs.returnFormat
        (processComputedStyle obs (cs (updateTarget src)) (updateTarget src)
          ((Store.get st.cachedValues (updateTarget src)).getD [])).1) := by
  simp only [handleUpdate]
  rw [if_pos hmem]
  split <;> rfl

theorem attach_snd (obs : CSSStyleObserver) (st : ObserverState)
    (cs : HTMLElement → String → String) (e : HTMLElement)
    (hnew : e ∉ st.observedElements) :
    (attach obs st cs e).2 =
      if ((processComputedStyle obs (cs e) e []).1.length == 0 : Bool) then none
      else some (getFormatter obs.returnFormat (processComputedStyle obs (cs e) e []).1) := by
  simp only [attach, if_neg hnew]
  rw [handleUpdate_snd obs _ cs (UpdateSource.element e) (by simp [updateTarget])]
  simp [updateTarget, Store.get_set_same]

theorem attach_snd_isSome (obs : CSSStyleObserver) (st : ObserverState)
    (cs : HTMLElement → String → String) (e : HTMLElement)
    (hnew : e ∉ st.observedElements) (hne : obs.observedVariables ≠ []) :
    (attach obs st cs e).2.isSome = true := by
  rw [attach_snd obs st cs e hnew]
  obtain ⟨p, rest, hvars⟩ := List.exists_cons_of_ne_nil hne
  have hstep : (processComputedStyle obs (cs e) e []).1 ≠ [] := by
    simp only [processComputedStyle, hvars, processVars, Store.get]
    rw [if_pos (by simp)]
    intro hnil
    exact absurd (processVars_fst_eq_nil _ _ _ _ _ _ hnil) (Store.set_ne_nil _ _ _)
  rw [if_neg (by simpa [List.length_eq_zero] using hstep)]
  rfl

theorem getFormatter_isEmptyPayload (format : String) (changes : StyleObserverChanges) :
    (getFormatter format changes).isEmptyPayload = changes.isEmpty := by
  simp only [getFormatter]
  split
  · rfl
  · cases changes <;> rfl

theorem getFormatter_of_ne_object (format : String) (changes : StyleObserverChanges)
    (hf : format ≠ ReturnFormat.OBJECT) :
    getFormatter format changes = getFormatter ReturnFormat.VALUE_ONLY changes := by
  simp only [getFormatter]
  rw [if_neg (by simpa using hf), if_neg (by decide)]

/-! Behavior is insensitive to the exact enum strings beyond the two
recognized branch values: anything other than `'all'` acts like
`CHANGED_ONLY`, anything other than `'object'` acts like `VALUE_ONLY`. -/

theorem processComputedStyle_congr_fallback (obs obs' : CSSStyleObserver)
    (f : String → String) (t : HTMLElement) (c : CachedValues)
    (hv : obs.observedVariables = obs'.observedVariables)
    (hm : (obs.notificationMode == NotificationMode.ALL) =
      (obs'.notificationMode == NotificationMode.ALL)) :
    processComputedStyle obs f t c = processComputedStyle obs' f t c := by
  simp only [processComputedStyle, hv]
  exact processVars_mode_congr _ _ _ _ _ _ _ hm

theorem handleUpdate_congr_fallback (obs obs' : CSSStyleObserver) (st : ObserverState)
    (cs : HTMLElement → String → String) (src : UpdateSource)
    (hv : obs.observedVariables = obs'.observedVariables)
    (hm : (obs.notificationMode == NotificationMode.ALL) =
      (obs'.notificationMode == NotificationMode.ALL))
    (hf : ∀ changes, getFormatter obs.returnFormat changes =
      getFormatter obs'.returnFormat changes) :
    handleUpdate obs st cs src = handleUpdate obs' st cs src := by
  simp only [handleUpdate]
  rw [processComputedStyle_congr_fallback obs obs' _ _ _ hv hm, hf]

theorem attach_congr_fallback (obs obs' : CSSStyleObserver) (st : ObserverState)
    (cs : HTMLElement → String → String) (e : HTMLElement)
    (hv : obs.observedVariables = obs'.observedVariables)
    (hm : (obs.notificationMode == NotificationMode.ALL) =
      (obs'.notificationMode == NotificationMode.ALL))
    (hf : ∀ changes, getFormatter obs.returnFormat changes =
      getFormatter obs'.returnFormat changes) :
    attach obs st cs e = attach obs' st cs e := by
  have hsty : ∀ st' t, setTargetElementStyles obs st' t = setTargetElementStyles obs' st' t := by
    intro st' t
    simp [setTargetElementStyles, cssTransitionValue, hv]
  simp only [attach]
  rw [hsty, handleUpdate_congr_fallback obs obs' _ cs _ hv hm hf]

/-! The claims. -/

/-- Claim C1 (code bug): an observer constructed with an options object that
omits both fields gets `notificationMode = CHANGED_ONLY` as documented, but
`returnFormat = VALUE_ONLY`, not `OBJECT`: the constructor evaluated at the
failing input. -/
theorem C1_constructor_defaults :
    (CSSStyleObserver.create ["--x"]
      { notificationMode := none, returnFormat := none }).notificationMode =
        NotificationMode.CHANGED_ONLY
    ∧ (CSSStyleObserver.create ["--x"]
      { notificationMode := none, returnFormat := none }).returnFormat =
        ReturnFormat.VALUE_ONLY
    ∧ ReturnFormat.VALUE_ONLY ≠ ReturnFormat.OBJECT :=
  ⟨rfl, rfl, by decide⟩

/-- Claim C2, counterexample: `_handleUpdate` never inspects the event's
property name.  With `--x` tracked in `ALL` mode and element `0` registered, a
transition-start event for the untracked property `opacity` invokes the
callback (with the full tracked set) instead of being ignored. -/
theorem C2_counterexample :
    "opacity" ∉ obsAll.observedVariables
    ∧ (0 : HTMLElement) ∈ stReg.observedElements
    ∧ (handleUpdate obsAll stReg csOne
        (UpdateSource.event { target := 0, propertyName := "opacity" })).2 =
      some (CSSDeclarations.valueOnly [("--x", "1")]) :=
  ⟨by decide, by decide, by rfl⟩

/-- Claim C2, amended: the update cycle ignores the event's property name and
always diffs every tracked property; an event on a registered element
produces no callback and leaves the whole state unchanged exactly when the
mode is not `ALL` and every tracked property's cached value already equals
its current computed value (in particular, in `CHANGED_ONLY` mode, an
incidental transition of an untracked property while the cache is in sync
with the computed style is a no-op). -/
theorem C2_amended_sync_no_callback (obs : CSSStyleObserver) (st : ObserverState)
    (cs : HTMLElement → String → String) (ev : TransitionEvent)
    (hm : obs.notificationMode ≠ NotificationMode.ALL)
    (hreg : ev.target ∈ st.observedElements)
    (hsync : ∀ p ∈ obs.observedVariables,
      Store.get ((Store.get st.cachedValues ev.target).getD []) p = some (cs ev.target p)) :
    handleUpdate obs st cs (UpdateSource.event ev) = (st, none) := by
  have hm' : (obs.notificationMode == NotificationMode.ALL) = false := by
    simpa using hm
  have hpv := processVars_sync obs.notificationMode (cs ev.target) ev.target
    obs.observedVariables [] ((Store.get st.cachedValues ev.target).getD []) hm' hsync
  simp only [handleUpdate, updateTarget]
  rw [if_pos hreg]
  simp only [processComputedStyle, hpv]
  rw [if_pos (by simp)]
  rw [Store.setIfPresent_getD]

/-- Claim C2, amended, witness: concrete instance of the amended claim with
`--x` tracked in `CHANGED_ONLY` mode, element `0` registered with cache
`--x ↦ "1"`, computed style `"1"`, and an event for untracked `opacity`. -/
theorem C2_amended_witness :
    handleUpdate obsChg stReg csOne
      (UpdateSource.event { target := 0, propertyName := "opacity" }) = (stReg, none) :=
  C2_amended_sync_no_callback obsChg stReg csOne
    { target := 0, propertyName := "opacity" } (by decide) (by decide) (by decide)

/-- Claim C3: the synchronous initial update cycle of `attach` on a
previously unobserved element reports every tracked property, each record
carrying `previousValue = none` and `changed = true`, formatted per the
configured return format. -/
theorem C3_first_cycle_reports_all (obs : CSSStyleObserver) (st : ObserverState)
    (cs : HTMLElement → String → String) (e : HTMLElement)
    (hnew : e ∉ st.observedElements) (hnd : obs.observedVariables.Nodup)
    (hne : obs.observedVariables ≠ []) :
    (attach obs st cs e).2 =
      some (getFormatter obs.returnFormat (obs.observedVariables.map (fun p =>
        (p, { value := cs e p, previousValue := none, changed := true, element := e })))) := by
  rw [attach_snd obs st cs e hnew]
  have hpf := processVars_fresh obs.notificationMode (cs e) e obs.observedVariables [] []
    hnd (fun p _ => rfl) (fun p _ => rfl)
  simp only [processComputedStyle, hpf, List.nil_append]
  rw [if_neg (by simpa [List.length_eq_zero, List.map_eq_nil_iff] using hne)]

/-- Claim C3, witness: attaching element `5` from the initial state with the
default configuration over `["--x"]` fires the initial callback with the
single record `{value "1", previousValue none, changed true, element 5}`. -/
theorem C3_witness :
    (attach obsChg initialState csOne 5).2 =
      some (getFormatter obsChg.returnFormat (obsChg.observedVariables.map (fun p =>
        (p, { value := csOne 5 p, previousValue := none, changed := true, element := 5 })))) :=
  C3_first_cycle_reports_all obsChg initialState csOne 5 (by decide) (by decide) (by decide)

/-- Claim C4: `observe` is idempotent per element.  After a first `attach` of
a fresh element, a second `attach` of the same element returns the state
unchanged and fires no callback; the state after the first `attach` holds
exactly one cache entry for the element, and the first `attach` fired exactly
one initial callback. -/
theorem C4_observe_idempotent (obs : CSSStyleObserver) (st : ObserverState)
    (cs cs' : HTMLElement → String → String) (e : HTMLElement)
    (hwf : StateWF st) (hnew : e ∉ st.observedElements)
    (hne : obs.observedVariables ≠ []) :
    attach obs (attach obs st cs e).1 cs' e = ((attach obs st cs e).1, none)
    ∧ ((attach obs st cs e).1.cachedValues.map Prod.fst).count e = 1
    ∧ (attach obs st cs e).2.isSome = true := by
  have hmem : e ∈ (attach obs st cs e).1.observedElements := by
    rw [attach_fst_observedElements obs st cs e hnew]
    simp
  refine ⟨attach_of_mem obs _ cs' e hmem, ?_, attach_snd_isSome obs st cs e hnew hne⟩
  rw [attach_fst_map_fst_cachedValues obs st cs e hnew,
    Store.map_fst_set_of_get_none _ _ _
      (Store.get_eq_none_of_not_mem _ _ (by rw [hwf.1]; exact hnew)),
    List.count_append, List.count_eq_zero.mpr (by rw [hwf.1]; exact hnew)]
  simp

/-- Claim C4, witness: concrete double `attach` of element `5` from the
initial state. -/
theorem C4_witness :
    attach obsChg (attach obsChg initialState csOne 5).1 csTwo 5 =
      ((attach obsChg initialState csOne 5).1, none)
    ∧ ((attach obsChg initialState csOne 5).1.cachedValues.map Prod.fst).count 5 = 1
    ∧ (attach obsChg initialState csOne 5).2.isSome = true :=
  C4_observe_idempotent obsChg initialState csOne csTwo 5 wf_initial (by decide) (by decide)

/-- Claim C5: the callback is never invoked with an empty mapping: whenever an
update cycle returns a callback payload, that payload is non-empty. -/
theorem C5_no_empty_callback (obs : CSSStyleObserver) (st : ObserverState)
    (cs : HTMLElement → String → String) (src : UpdateSource) (d : CSSDeclarations)
    (h : (handleUpdate obs st cs src).2 = some d) :
    d.isEmptyPayload = false := by
  by_cases hmem : updateTarget src ∈ st.observedElements
  · rw [handleUpdate_snd obs st cs src hmem] at h
    split at h
    · exact absurd h (by simp)
    · rename_i hlen
      rw [Option.some_inj] at h
      rw [← h, getFormatter_isEmptyPayload]
      simpa [List.length_eq_zero] using hlen
  · rw [handleUpdate_not_observed obs st cs src hmem] at h
    exact absurd h (by simp)

/-- Claim C5, witness: a cycle that changes `--x` from `"1"` to `"2"` emits
the non-empty payload `{--x ↦ "2"}`. -/
theorem C5_witness :
    (CSSDeclarations.valueOnly [("--x", "2")]).isEmptyPayload = false :=
  C5_no_empty_callback obsChg stReg csTwo
    (UpdateSource.event { target := 0, propertyName := "--x" })
    (CSSDeclarations.valueOnly [("--x", "2")]) (by rfl)

/-- Claim C6: after `detach e` on a duplicate-free registration set, a
subsequent transition-start event for `e` produces no callback and no state
change; after `detach` with no argument, a subsequent event for any element
produces no callback and no state change. -/
theorem C6_detached_events_ignored (obs : CSSStyleObserver) (st : ObserverState)
    (cs : HTMLElement → String → String) (hnd : st.observedElements.Nodup)
    (e x : HTMLElement) (pn pn' : String) :
    handleUpdate obs (detach st (some e)) cs
      (UpdateSource.event { target := e, propertyName := pn }) = (detach st (some e), none)
    ∧ handleUpdate obs (detach st none) cs
      (UpdateSource.event { target := x, propertyName := pn' }) = (detach st none, none) := by
  constructor
  · exact handleUpdate_not_observed _ _ _ _
      (by simpa [updateTarget] using detach_some_not_mem st e hnd)
  · exact handleUpdate_not_observed _ _ _ _
      (by simp [updateTarget, detach_none_observedElements st hnd])

/-- Claim C6, witness: detaching element `0` from the concrete registered
state, then delivering events. -/
theorem C6_witness :
    handleUpdate obsChg (detach stReg (some 0)) csTwo
      (UpdateSource.event { target := 0, propertyName := "--x" }) = (detach stReg (some 0), none)
    ∧ handleUpdate obsChg (detach stReg none) csTwo
      (UpdateSource.event { target := 1, propertyName := "--x" }) = (detach stReg none, none) :=
  C6_detached_events_ignored obsChg stReg csTwo (by decide) 0 1 "--x" "--x"

/-- Claim C7: in every reachable observer state, an element has a cache entry
if and only if it is currently registered. -/
theorem C7_cache_iff_registered (obs : CSSStyleObserver) (st : ObserverState)
    (h : Reachable obs st) (e : HTMLElement) :
    (Store.get st.cachedValues e).isSome = true ↔ e ∈ st.observedElements := by
  rw [Store.get_isSome_iff_mem, (reachable_wf obs st h).1]

/-- Claim C7, witness: the invariant instantiated at the (reachable) initial
state and element `0`. -/
theorem C7_witness :
    (Store.get initialState.cachedValues 0).isSome = true ↔
      (0 : HTMLElement) ∈ initialState.observedElements :=
  C7_cache_iff_registered obsChg initialState Reachable.init 0

/-- Claim C8: for a single tracked property whose computed value transitions
from `"1"` to `"2"` on a registered element, the cycle's payload under
`VALUE_ONLY` maps the property to the bare string `"2"`, and under `OBJECT`
to the record `{value "2", previousValue "1", changed true, element e}`. -/
theorem C8_payload_shapes (obs : CSSStyleObserver) (st : ObserverState)
    (cs : HTMLElement → String → String) (p : String) (e : HTMLElement)
    (cache : CachedValues)
    (hvars : obs.observedVariables = [p])
    (hreg : e ∈ st.observedElements)
    (hget : Store.get st.cachedValues e = some cache)
    (hp : Store.get cache p = some "1")
    (hcs : cs e p = "2") :
    (handleUpdate { obs with returnFormat := ReturnFormat.VALUE_ONLY } st cs
        (UpdateSource.event { target := e, propertyName := p })).2 =
      some (CSSDeclarations.valueOnly [(p, "2")])
    ∧ (handleUpdate { obs with returnFormat := ReturnFormat.OBJECT } st cs
        (UpdateSource.event { target := e, propertyName := p })).2 =
      some (CSSDeclarations.object
        [(p, { value := "2", previousValue := some "1", changed := true, element := e })]) := by
  have hchanges : ∀ fmt : String,
      (processComputedStyle { obs with returnFormat := fmt } (cs e) e
        ((Store.get st.cachedValues e).getD [])).1 =
      [(p, { value := "2", previousValue := some "1", changed := true, element := e })] := by
    intro fmt
    simp only [processComputedStyle, hvars, hget, Option.getD_some, processVars, hp, hcs]
    rw [if_pos (by simp)]
    simp [processVars, Store.set]
  constructor
  · rw [handleUpdate_snd _ st cs _ (by simpa [updateTarget] using hreg)]
    simp only [updateTarget, hchanges]
    rw [if_neg (by simp)]
    simp [getFormatter, ReturnFormat.VALUE_ONLY, ReturnFormat.OBJECT]
  · rw [handleUpdate_snd _ st cs _ (by simpa [updateTarget] using hreg)]
    simp only [updateTarget, hchanges]
    rw [if_neg (by simp)]
    simp [getFormatter]

/-- Claim C8, witness: the two payload shapes at the concrete registered
state with cache `--x ↦ "1"` and computed value `"2"`. -/
theorem C8_witness :
    (handleUpdate { obsChg with returnFormat := ReturnFormat.VALUE_ONLY } stReg csTwo
        (UpdateSource.event { target := 0, propertyName := "--x" })).2 =
      some (CSSDeclarations.valueOnly [("--x", "2")])
    ∧ (handleUpdate { obsChg with returnFormat := ReturnFormat.OBJECT } stReg csTwo
        (UpdateSource.event { target := 0, propertyName := "--x" })).2 =
      some (CSSDeclarations.object
        [("--x", { value := "2", previousValue := some "1", changed := true, element := 0 })]) :=
  C8_payload_shapes obsChg stReg csTwo "--x" 0 [("--x", "1")]
    (by decide) (by decide) (by decide) (by decide) (by decide)

/-- Claim C9: unrecognized enum strings do not raise, and each field falls
back independently: an observer whose `returnFormat` is not `'object'`
behaves, on every update cycle and every registration, exactly like the same
observer with `returnFormat = VALUE_ONLY` (its notification mode, recognized
or not, untouched); and one whose `notificationMode` is not `'all'` behaves
exactly like the same observer with `notificationMode = CHANGED_ONLY` (its
return format, recognized or not, untouched). -/
theorem C9_unrecognized_fallback (obs : CSSStyleObserver) (st : ObserverState)
    (cs : HTMLElement → String → String) (src : UpdateSource) (e : HTMLElement) :
    (obs.returnFormat ≠ ReturnFormat.OBJECT →
      handleUpdate obs st cs src =
        handleUpdate { obs with returnFormat := ReturnFormat.VALUE_ONLY } st cs src
      ∧ attach obs st cs e =
        attach { obs with returnFormat := ReturnFormat.VALUE_ONLY } st cs e)
    ∧ (obs.notificationMode ≠ NotificationMode.ALL →
      handleUpdate obs st cs src =
        handleUpdate { obs with notificationMode := NotificationMode.CHANGED_ONLY } st cs src
      ∧ attach obs st cs e =
        attach { obs with notificationMode := NotificationMode.CHANGED_ONLY } st cs e) := by
  constructor
  · intro hf
    have hf' : ∀ changes, getFormatter obs.returnFormat changes =
        getFormatter ReturnFormat.VALUE_ONLY changes :=
      fun changes => getFormatter_of_ne_object obs.returnFormat changes hf
    exact ⟨handleUpdate_congr_fallback _ _ st cs src rfl rfl hf',
      attach_congr_fallback _ _ st cs e rfl rfl hf'⟩
  · intro hm
    have hm' : (obs.notificationMode == NotificationMode.ALL) =
        ((NotificationMode.CHANGED_ONLY : String) == NotificationMode.ALL) := by
      simp [hm]
      decide
    exact ⟨handleUpdate_congr_fallback _ _ st cs src rfl hm' (fun _ => rfl),
      attach_congr_fallback _ _ st cs e rfl hm' (fun _ => rfl)⟩

/-- Claim C9, witness: the two single-field fallbacks at the mixed
configurations: an unrecognized `returnFormat` paired with the recognized
`ALL` mode, and an unrecognized `notificationMode` paired with the recognized
`OBJECT` format. -/
theorem C9_witness :
    (handleUpdate obsBogusFmtAll stReg csTwo
        (UpdateSource.event { target := 0, propertyName := "--x" }) =
      handleUpdate { obsBogusFmtAll with returnFormat := ReturnFormat.VALUE_ONLY } stReg csTwo
        (UpdateSource.event { target := 0, propertyName := "--x" })
    ∧ attach obsBogusFmtAll stReg csTwo 1 =
      attach { obsBogusFmtAll with returnFormat := ReturnFormat.VALUE_ONLY } stReg csTwo 1)
    ∧ (handleUpdate obsBogusModeObj stReg csTwo
        (UpdateSource.event { target := 0, propertyName := "--x" }) =
      handleUpdate { obsBogusModeObj with notificationMode := NotificationMode.CHANGED_ONLY } stReg csTwo
        (UpdateSource.event { target := 0, propertyName := "--x" })
    ∧ attach obsBogusModeObj stReg csTwo 1 =
      attach { obsBogusModeObj with notificationMode := NotificationMode.CHANGED_ONLY } stReg csTwo 1) :=
  ⟨(C9_unrecognized_fallback obsBogusFmtAll stReg csTwo
      (UpdateSource.event { target := 0, propertyName := "--x" }) 1).1 (by decide),
    (C9_unrecognized_fallback obsBogusModeObj stReg csTwo
      (UpdateSource.event { target := 0, propertyName := "--x" }) 1).2 (by decide)⟩

/-- Claim C10: when the notification mode is not `ALL`, every record in every
`OBJECT`-format payload passed to the callback has `changed = true`. -/
theorem C10_changed_only_all_true (obs : CSSStyleObserver) (st : ObserverState)
    (cs : HTMLElement → String → String) (src : UpdateSource)
    (l : StyleObserverChanges)
    (hm : obs.notificationMode ≠ NotificationMode.ALL)
    (h : (handleUpdate obs st cs src).2 = some (CSSDeclarations.object l)) :
    l.all (fun pr => pr.2.changed) = true := by
  have hm' : (obs.notificationMode == NotificationMode.ALL) = false := by
    simpa using hm
  by_cases hmem : updateTarget src ∈ st.observedElements
  · rw [handleUpdate_snd obs st cs src hmem] at h
    split at h
    · exact absurd h (by simp)
    · rw [Option.some_inj] at h
      by_cases hfmt : (obs.returnFormat == ReturnFormat.OBJECT : Bool)
      · rw [getFormatter, if_pos hfmt] at h
        injection h with h
        rw [List.all_eq_true]
        intro pr hpr
        rw [← h] at hpr
        simp only [processComputedStyle] at hpr
        exact processVars_changed_true obs.notificationMode (cs (updateTarget src))
          (updateTarget src) obs.observedVariables [] _ hm' (by simp) pr hpr
      · rw [getFormatter, if_neg hfmt] at h
        exact absurd h (by simp)
  · rw [handleUpdate_not_observed obs st cs src hmem] at h
    exact absurd h (by simp)

/-- Claim C10, witness: the `OBJECT`-format cycle changing `--x` from `"1"` to
`"2"` yields a payload whose single record has `changed = true`. -/
theorem C10_witness :
    (([("--x", { value := "2", previousValue := some "1", changed := true, element := 0 })] :
      StyleObserverChanges).all (fun pr => pr.2.changed)) = true :=
  C10_changed_only_all_true obsObjFmt stReg csTwo
    (UpdateSource.event { target := 0, propertyName := "--x" })
    [("--x", { value := "2", previousValue := some "1", changed := true, element := 0 })]
    (by decide) (by rfl)

end StyleObserver
